import Mathlib

/-!
Verification of the Schwarzschild effective-potential applications
(`src/streamlit/schwarzschild_potential.py` and
`src/streamlit/schwarzschild_potential_photon.py`).

Real-number arithmetic models the Python floating-point arithmetic.
Parsed parameter values are modelled as rationals, so that the parser is
executable; they are cast to the reals at the evaluation stage.
-/

/-! ## Input parser (the `l_list` / `b_list` parsing loops) -/

/-- Numeric value of a list of decimal digit characters. -/
def digitsToNat (ds : List Char) : ℕ :=
  ds.foldl (fun acc c => 10 * acc + (c.toNat - 48)) 0

/-- Consume an optional leading sign; returns (isNegative, rest). -/
def parseSign : List Char → Bool × List Char
  | '+' :: rest => (false, rest)
  | '-' :: rest => (true, rest)
  | cs => (false, cs)

/-- Consume `digits [. digits]` with at least one digit overall, as in a
Python float literal; returns the mantissa value and the unconsumed rest. -/
def parseMantissa (cs : List Char) : Option (ℚ × List Char) :=
  let ip := cs.takeWhile Char.isDigit
  let rest1 := cs.dropWhile Char.isDigit
  match rest1 with
  | '.' :: rest2 =>
    let fp := rest2.takeWhile Char.isDigit
    let rest3 := rest2.dropWhile Char.isDigit
    if ip.isEmpty && fp.isEmpty then none
    else some ((digitsToNat ip : ℚ) + (digitsToNat fp : ℚ) / 10 ^ fp.length, rest3)
  | _ =>
    if ip.isEmpty then none
    else some ((digitsToNat ip : ℚ), rest1)

/-- Consume an optional exponent part `(e|E) [sign] digits`. -/
def parseExponent (cs : List Char) : Option (ℤ × List Char) :=
  match cs with
  | c :: rest =>
    if c = 'e' ∨ c = 'E' then
      let sr := parseSign rest
      let ds := sr.2.takeWhile Char.isDigit
      let rest3 := sr.2.dropWhile Char.isDigit
      if ds.isEmpty then none
      else some (if sr.1 then -(digitsToNat ds : ℤ) else (digitsToNat ds : ℤ), rest3)
    else some (0, c :: rest)
  | [] => some (0, [])

/-- Python `float(s)` on decimal literals: optional sign, mantissa with an
optional fractional part, optional exponent; `none` models the
`ValueError` raised on an unparsable token. -/
def pyFloat? (s : String) : Option ℚ :=
  let sg := parseSign s.data
  match parseMantissa sg.2 with
  | none => none
  | some (m, cs2) =>
    match parseExponent cs2 with
    | none => none
    | some (e, cs3) =>
      if cs3.isEmpty then some ((if sg.1 then -m else m) * (10 : ℚ) ^ e)
      else none

/-- Python `str.split(",")`: split at every comma, empty pieces kept. -/
def splitOnComma : List Char → List (List Char)
  | [] => [[]]
  | c :: rest =>
    if c = ',' then [] :: splitOnComma rest
    else
      match splitOnComma rest with
      | [] => [[c]]
      | t :: ts => (c :: t) :: ts

/-- Python `str.strip()`: drop whitespace from both ends. -/
def strip (cs : List Char) : List Char :=
  ((cs.dropWhile Char.isWhitespace).reverse.dropWhile Char.isWhitespace).reverse

/-- The warning emitted by `st.sidebar.warning` for an unparsable token. -/
def warnMsg (part : String) : String :=
  "No se pudo interpretar \x27" ++ part ++ "\x27 como un número; se ignora."

/-- One iteration of the parsing loop: strip the token, skip it when it is
empty, append its value on success and a warning on failure. -/
def parseStep (acc : List ℚ × List String) (part0 : String) : List ℚ × List String :=
  let part := String.mk (strip part0.data)
  if part = "" then acc
  else
    match pyFloat? part with
    | some v => (acc.1 ++ [v], acc.2)
    | none => (acc.1, acc.2 ++ [warnMsg part])

/-- The parsing loop: split the raw text on commas and fold `parseStep`
over the pieces, accumulating values and warnings. -/
def parse_numbers (raw : String) : List ℚ × List String :=
  ((splitOnComma raw.data).map String.mk).foldl parseStep ([], [])

/-- The stripped, non-empty tokens of the raw input, in order. -/
def validTokens (raw : String) : List String :=
  ((splitOnComma raw.data).map fun cs => String.mk (strip cs)).filter fun t => !(t == "")

/-- Number of points of the radial grid (`num_points = 3000`). -/
def num_points : ℕ := 3000

/-! ## Potential evaluators, extrema analysis, classification, landmarks -/

/-- A critical point of a massive-particle potential curve. -/
inductive ExtremumKind where
  | max
  | min

/-- Radius, potential value and kind of one marked extremum. -/
structure ExtremumPoint where
  radius : ℝ
  value : ℝ
  kind : ExtremumKind

/-- Regime of a photon trajectory for a given impact parameter. -/
inductive Regime where
  | captured
  | escapes
  | critical

/-- Impact parameter value, effective energy and regime. -/
structure ImpactClassification where
  b : ℝ
  E_eff : ℝ
  regime : Regime

/-- Outcome of one render cycle: either the fatal empty-input error
(`st.error` followed by `st.stop`), or a plot built from the radial grid,
one series per parsed parameter value, and the parse warnings. -/
inductive RenderResult (α : Type) where
  | fatalError (msg : String)
  | plot (grid : List ℝ) (series : List α) (warnings : List String)

noncomputable section

/-- Relativistic effective potential per unit mass (`V_eff`). -/
def V_eff (r GM l : ℝ) : ℝ :=
  -GM / r + 0.5 * l ^ 2 / r ^ 2 - GM * l ^ 2 / r ^ 3

/-- Newtonian effective potential (without the 1/r³ term). -/
def V_eff_newton (r GM l : ℝ) : ℝ :=
  -GM / r + 0.5 * l ^ 2 / r ^ 2

/-- Schwarzschild effective potential for photons. -/
def V_eff_photon (r GM : ℝ) : ℝ :=
  (1 / r ^ 2) * (1 - 2 * GM / r)

/-- Newtonian effective potential for photons. -/
def V_eff_newton_photon (r : ℝ) : ℝ :=
  1 / r ^ 2

/-- `np.linspace a b n`: n evenly spaced samples from a to b inclusive. -/
def linspace (a b : ℝ) (n : ℕ) : List ℝ :=
  (List.range n).map fun i : ℕ => a + (i : ℝ) * ((b - a) / ((n : ℝ) - 1))

/-- Extrema detection for one angular momentum value, as in the plotting
loop of `schwarzschild_potential.py`: critical angular momentum check,
discriminant analysis, the two closed-form roots, window filtering, and
exact evaluation of the potential at each kept root. -/
def find_extrema (GM l r_min r_max : ℝ) : List ExtremumPoint :=
  let l_critical := 2 * Real.sqrt 3 * GM
  if l > l_critical then
    let discriminant := 1 - 12 * (GM / l) ^ 2
    if discriminant > 0 then
      let sqrt_disc := Real.sqrt discriminant
      let r_max_loc := 6 * GM / (1 + sqrt_disc)
      let r_min_loc := 6 * GM / (1 - sqrt_disc)
      (if r_min ≤ r_max_loc ∧ r_max_loc ≤ r_max then
        [⟨r_max_loc, V_eff r_max_loc GM l, ExtremumKind.max⟩] else []) ++
      (if r_min ≤ r_min_loc ∧ r_min_loc ≤ r_max then
        [⟨r_min_loc, V_eff r_min_loc GM l, ExtremumKind.min⟩] else [])
    else []
  else []

/-- Root formula for the location of the potential maximum, 6GM/(1+√D). -/
def r_max_loc (GM l : ℝ) : ℝ :=
  6 * GM / (1 + Real.sqrt (1 - 12 * (GM / l) ^ 2))

/-- Root formula for the location of the potential minimum, 6GM/(1−√D). -/
def r_min_loc (GM l : ℝ) : ℝ :=
  6 * GM / (1 - Real.sqrt (1 - 12 * (GM / l) ^ 2))

/-- Per-b step of the photon energy-level loop: the effective energy
1/(b·GM)², with `none` modelling the unguarded `ZeroDivisionError` when
b·GM = 0, and the regime from comparing b·GM with b_critical = √27·GM. -/
def classify_impact_parameter (b GM : ℝ) : Option ImpactClassification :=
  if (b * GM) ^ 2 = 0 then none
  else
    let E_eff := 1 / (b * GM) ^ 2
    let b_critical := Real.sqrt 27 * GM
    some ⟨b, E_eff,
      if b * GM < b_critical then Regime.captured
      else if b * GM > b_critical then Regime.escapes
      else Regime.critical⟩

/-- The photon-sphere landmark: radius 3GM with the exact potential there,
marked only when 3GM lies inside the [r_min, r_max] window. -/
def photonOrbitLandmark (GM r_min r_max : ℝ) : Option (ℝ × ℝ) :=
  let r_photon_orbit := 3 * GM
  if r_min ≤ r_photon_orbit ∧ r_photon_orbit ≤ r_max then
    some (r_photon_orbit, V_eff_photon r_photon_orbit GM)
  else none

/-- The event-horizon landmark: radius 2GM, marked only when it lies
inside the [r_min, r_max] window. -/
def horizonLandmark (GM r_min r_max : ℝ) : Option ℝ :=
  let r_horizon := 2 * GM
  if r_min ≤ r_horizon ∧ r_horizon ≤ r_max then some r_horizon else none

/-- The massive-particle render cycle after the widget stage: parse, stop
with an error message when no value parsed, otherwise build the radial
grid and one relativistic curve per angular momentum value, with the
parse warnings reported alongside. -/
def render_massive (raw : String) (GM r_min r_max : ℝ) :
    RenderResult (ℚ × List ℝ) :=
  let parsed := parse_numbers raw
  if parsed.1 = [] then
    RenderResult.fatalError "Por favor ingresa al menos un valor válido para $\\ell$."
  else
    let r := (linspace r_min r_max num_points).map fun x => x * GM
    RenderResult.plot r (parsed.1.map fun l => (l, r.map fun x => V_eff x GM (l : ℝ))) parsed.2

/-- The photon render cycle after the widget stage: parse, stop with an
error message when no value parsed, otherwise build the radial grid and
one classified energy level per impact parameter, with the parse warnings
reported alongside. -/
def render_photon (raw : String) (GM r_min r_max : ℝ) :
    RenderResult (Option ImpactClassification) :=
  let parsed := parse_numbers raw
  if parsed.1 = [] then
    RenderResult.fatalError "Por favor ingresa al menos un valor válido para $b$."
  else
    let r := (linspace r_min r_max num_points).map fun x => x * GM
    RenderResult.plot r (parsed.1.map fun b => classify_impact_parameter (b : ℝ) GM) parsed.2

end

/-! ## Helper lemmas -/

theorem sqrt3_lt_two : Real.sqrt 3 < 2 :=
  (Real.sqrt_lt' (by norm_num)).mpr (by norm_num)

theorem three_le_two_mul_sqrt3 : (3 : ℝ) ≤ 2 * Real.sqrt 3 := by
  have h := (Real.le_sqrt' (by norm_num : (0 : ℝ) < 3 / 2)).mpr
    (by norm_num : ((3 : ℝ) / 2) ^ 2 ≤ 3)
  linarith

theorem sqrt27_lt_six : Real.sqrt 27 < 6 :=
  (Real.sqrt_lt' (by norm_num)).mpr (by norm_num)

theorem four_lt_sqrt27 : (4 : ℝ) < Real.sqrt 27 :=
  (Real.lt_sqrt (by norm_num)).mpr (by norm_num)

theorem sqrt27_pos : 0 < Real.sqrt 27 :=
  Real.sqrt_pos.mpr (by norm_num)

attribute [local semireducible] Rat.mul Rat.add Rat.sub Rat.inv in
theorem parse_numbers_example : parse_numbers "4, abc, 7" = ([4, 7], [warnMsg "abc"]) := by
  decide

attribute [local semireducible] Rat.mul Rat.add Rat.sub Rat.inv in
theorem parse_numbers_zero : parse_numbers "0" = ([0], []) := by
  decide

theorem parseStep_foldl (parts : List String) (vs : List ℚ) (ws : List String) :
    parts.foldl parseStep (vs, ws) =
      (vs ++ ((parts.map fun p => String.mk (strip p.data)).filter
        (fun t => !(t == ""))).filterMap pyFloat?,
       ws ++ ((((parts.map fun p => String.mk (strip p.data)).filter
        (fun t => !(t == ""))).filter fun t => (pyFloat? t).isNone).map warnMsg)) := by
  induction parts generalizing vs ws with
  | nil => simp
  | cons p ps ih =>
    by_cases hp : String.mk (strip p.data) = ""
    · simp [List.foldl_cons, parseStep, hp, ih]
    · cases hv : pyFloat? (String.mk (strip p.data)) with
      | some v => simp [List.foldl_cons, parseStep, hp, hv, ih]
      | none => simp [List.foldl_cons, parseStep, hp, hv, ih]

/-! ## Claim theorems -/

/-- C4: the parser splits the raw text on commas, trims each token, drops
empty tokens silently, returns the successfully converted values in the
order the valid tokens appeared, and emits exactly one warning naming each
unparsable token while continuing with the rest; in particular
"4, abc, 7" parses to values [4, 7] with the single warning naming "abc". -/
theorem C4_parse_numbers (raw : String) :
    parse_numbers raw =
      ((validTokens raw).filterMap pyFloat?,
       ((validTokens raw).filter fun t => (pyFloat? t).isNone).map warnMsg) ∧
    parse_numbers "4, abc, 7" = ([4, 7], [warnMsg "abc"]) := by
  constructor
  · have h := parseStep_foldl ((splitOnComma raw.data).map String.mk) [] []
    simpa [parse_numbers, validTokens, List.map_map, Function.comp] using h
  · exact parse_numbers_example

/-- C6: the massive-particle evaluator computes
V(r) = −GM/r + ℓ²/(2r²) − GM·ℓ²/r³ and its Newtonian counterpart
V_Newton(r) = −GM/r + ℓ²/(2r²) for every r > 0; and
`effective_potential(r=3, GM=1, l=4)` equals −1/3 + 16/18 − 16/27. -/
theorem C6_massive_evaluator (r GM l : ℝ) (hr : 0 < r) :
    V_eff r GM l = -GM / r + l ^ 2 / (2 * r ^ 2) - GM * l ^ 2 / r ^ 3 ∧
    V_eff_newton r GM l = -GM / r + l ^ 2 / (2 * r ^ 2) ∧
    V_eff 3 1 4 = -1 / 3 + 16 / 18 - 16 / 27 := by
  refine ⟨?_, ?_, ?_⟩
  · unfold V_eff; norm_num; ring
  · unfold V_eff_newton; norm_num; ring
  · unfold V_eff; norm_num

theorem C6_witness : V_eff 3 1 4 = -1 / 3 + 16 / 18 - 16 / 27 :=
  (C6_massive_evaluator 1 1 1 one_pos).2.2

/-- C7: for every r > 2GM with GM > 0 and l > 0, the Newtonian potential
exceeds the relativistic one by exactly GM·ℓ²/r³, which is positive. -/
theorem C7_newtonian_exceeds (r GM l : ℝ) (hGM : 0 < GM) (hl : 0 < l)
    (hr : 2 * GM < r) :
    V_eff_newton r GM l - V_eff r GM l = GM * l ^ 2 / r ^ 3 ∧
    0 < GM * l ^ 2 / r ^ 3 ∧
    V_eff r GM l < V_eff_newton r GM l := by
  have hr0 : 0 < r := by linarith
  have h1 : V_eff_newton r GM l - V_eff r GM l = GM * l ^ 2 / r ^ 3 := by
    unfold V_eff V_eff_newton; ring
  have h2 : 0 < GM * l ^ 2 / r ^ 3 := by positivity
  exact ⟨h1, h2, by linarith⟩

theorem C7_witness : V_eff 3 1 1 < V_eff_newton 3 1 1 :=
  (C7_newtonian_exceeds 3 1 1 one_pos one_pos (by norm_num)).2.2

/-- C8: the photon evaluator computes V(r) = (1/r²)(1 − 2GM/r); the
photon-sphere landmark satisfies V(3GM) = 1/(27·GM²) and is marked exactly
when 3GM lies inside [r_min, r_max], and likewise the horizon landmark at
2GM is shown exactly when it lies inside the window. -/
theorem C8_photon_evaluator (GM r1 r2 : ℝ) (hGM : 0 < GM) :
    (∀ r, V_eff_photon r GM = (1 / r ^ 2) * (1 - 2 * GM / r)) ∧
    V_eff_photon (3 * GM) GM = 1 / (27 * GM ^ 2) ∧
    (photonOrbitLandmark GM r1 r2 = some (3 * GM, 1 / (27 * GM ^ 2)) ↔
      r1 ≤ 3 * GM ∧ 3 * GM ≤ r2) ∧
    (photonOrbitLandmark GM r1 r2 = none ↔ ¬(r1 ≤ 3 * GM ∧ 3 * GM ≤ r2)) ∧
    (horizonLandmark GM r1 r2 = some (2 * GM) ↔ r1 ≤ 2 * GM ∧ 2 * GM ≤ r2) := by
  have hGM0 : GM ≠ 0 := ne_of_gt hGM
  have hval : V_eff_photon (3 * GM) GM = 1 / (27 * GM ^ 2) := by
    unfold V_eff_photon; field_simp; ring
  refine ⟨fun r => rfl, hval, ?_, ?_, ?_⟩
  · unfold photonOrbitLandmark
    by_cases h : r1 ≤ 3 * GM ∧ 3 * GM ≤ r2
    · simp [h, hval]
    · simp [h]
  · unfold photonOrbitLandmark
    by_cases h : r1 ≤ 3 * GM ∧ 3 * GM ≤ r2
    · simp [h]
    · simp [h]
  · unfold horizonLandmark
    by_cases h : r1 ≤ 2 * GM ∧ 2 * GM ≤ r2
    · simp [h]
    · simp [h]

theorem C8_witness : V_eff_photon (3 * 1) 1 = 1 / (27 * 1 ^ 2) :=
  (C8_photon_evaluator 1 1 10 one_pos).2.1

/-- C3 counterexample: at the concrete input b = 0 (with GM = 1) the code
assigns no regime at all: the effective-energy computation divides by zero
(modelled by `none`), although b·GM < √27·GM, where the claim demands the
regime "captured". -/
theorem C3_counterexample :
    classify_impact_parameter 0 1 = none ∧ (0 : ℝ) * 1 < Real.sqrt 27 * 1 := by
  constructor
  · simp [classify_impact_parameter]
  · simpa using sqrt27_pos

/-- C3 (amended to b ≠ 0): for every finite b ≠ 0 and GM > 0 the
classification assigns exactly one regime: "captured" iff b·GM < √27·GM,
"escapes" iff b·GM > √27·GM, "critical" iff b·GM = √27·GM exactly; in
particular b = √27 is critical, b = 6 escapes and b = 4 is captured. -/
theorem C3_classification (b GM : ℝ) (hGM : 0 < GM) (hb : b ≠ 0) :
    (∃ c, classify_impact_parameter b GM = some c ∧
      c.b = b ∧ c.E_eff = 1 / (b * GM) ^ 2 ∧
      (c.regime = Regime.captured ↔ b * GM < Real.sqrt 27 * GM) ∧
      (c.regime = Regime.escapes ↔ Real.sqrt 27 * GM < b * GM) ∧
      (c.regime = Regime.critical ↔ b * GM = Real.sqrt 27 * GM)) ∧
    (∃ c, classify_impact_parameter (Real.sqrt 27) 1 = some c ∧
      c.regime = Regime.critical) ∧
    (∃ c, classify_impact_parameter 6 1 = some c ∧ c.regime = Regime.escapes) ∧
    (∃ c, classify_impact_parameter 4 1 = some c ∧ c.regime = Regime.captured) := by
  refine ⟨?_, ?_, ?_, ?_⟩
  · have hne : (b * GM) ^ 2 ≠ 0 := pow_ne_zero 2 (mul_ne_zero hb (ne_of_gt hGM))
    simp only [classify_impact_parameter]
    rw [if_neg hne]
    rcases lt_trichotomy (b * GM) (Real.sqrt 27 * GM) with h | h | h
    · rw [if_pos h]
      exact ⟨_, rfl, rfl, rfl, by simp [h], by simp [lt_asymm h], by simp [ne_of_lt h]⟩
    · rw [if_neg (by simp [h]), if_neg (by simp [h])]
      exact ⟨_, rfl, rfl, rfl, by simp [h], by simp [h], by simp [h]⟩
    · rw [if_neg (not_lt.mpr (le_of_lt h)), if_pos h]
      exact ⟨_, rfl, rfl, rfl, by simp [lt_asymm h], by simp [h], by simp [ne_of_gt h]⟩
  · have hne : (Real.sqrt 27 * 1) ^ 2 ≠ 0 := by
      simpa using ne_of_gt sqrt27_pos
    simp only [classify_impact_parameter]
    rw [if_neg hne, if_neg (lt_irrefl _), if_neg (lt_irrefl _)]
    exact ⟨_, rfl, rfl⟩
  · have hne : ((6 : ℝ) * 1) ^ 2 ≠ 0 := by norm_num
    have h6 : Real.sqrt 27 * 1 < 6 * 1 := by simpa using sqrt27_lt_six
    simp only [classify_impact_parameter]
    rw [if_neg hne, if_neg (not_lt.mpr (le_of_lt h6)), if_pos h6]
    exact ⟨_, rfl, rfl⟩
  · have hne : ((4 : ℝ) * 1) ^ 2 ≠ 0 := by norm_num
    have h4 : 4 * 1 < Real.sqrt 27 * 1 := by simpa using four_lt_sqrt27
    simp only [classify_impact_parameter]
    rw [if_neg hne, if_pos h4]
    exact ⟨_, rfl, rfl⟩

theorem C3_witness :
    ∃ c, classify_impact_parameter 4 1 = some c ∧ c.regime = Regime.captured :=
  (C3_classification 4 1 one_pos (by norm_num)).2.2.2

/-- C1: `find_extrema` returns the empty sequence whenever l ≤ 2√3·GM,
including the exact boundary l = 2√3·GM (excluded by the strict
comparison); for GM=1, r_min=0, r_max=1000, l=4 yields exactly 2 extremum
points, while l=3 and l=2√3 yield 0 points. -/
theorem C1_extrema_threshold (GM l rmin rmax : ℝ) (hGM : 0 < GM)
    (hl : l ≤ 2 * Real.sqrt 3 * GM) :
    find_extrema GM l rmin rmax = [] ∧
    (find_extrema 1 4 0 1000).length = 2 ∧
    find_extrema 1 3 0 1000 = [] ∧
    find_extrema 1 (2 * Real.sqrt 3) 0 1000 = [] := by
  refine ⟨?_, ?_, ?_, ?_⟩
  · simp only [find_extrema]
    rw [if_neg (not_lt.mpr hl)]
  · have hcrit : 2 * Real.sqrt 3 * 1 < 4 := by
      have := sqrt3_lt_two; linarith
    have hD : (0 : ℝ) < 1 - 12 * (1 / 4) ^ 2 := by norm_num
    have hsq : Real.sqrt (1 - 12 * ((1 : ℝ) / 4) ^ 2) = 1 / 2 := by
      rw [show (1 - 12 * ((1 : ℝ) / 4) ^ 2) = (1 / 2) ^ 2 by norm_num]
      exact Real.sqrt_sq (by norm_num)
    have hc1 : (0 : ℝ) ≤ 6 * 1 / (1 + 1 / 2) ∧ (6 : ℝ) * 1 / (1 + 1 / 2) ≤ 1000 := by
      norm_num
    have hc2 : (0 : ℝ) ≤ 6 * 1 / (1 - 1 / 2) ∧ (6 : ℝ) * 1 / (1 - 1 / 2) ≤ 1000 := by
      norm_num
    simp only [find_extrema]
    rw [if_pos hcrit, if_pos hD, hsq, if_pos hc1, if_pos hc2]
    rfl
  · have h3 : ¬ (2 * Real.sqrt 3 * 1 < 3) := by
      rw [mul_one]; exact not_lt.mpr three_le_two_mul_sqrt3
    simp only [find_extrema]
    rw [if_neg h3]
  · have hb : ¬ (2 * Real.sqrt 3 * 1 < 2 * Real.sqrt 3) := by
      rw [mul_one]; exact lt_irrefl _
    simp only [find_extrema]
    rw [if_neg hb]

theorem C1_witness :
    (0 : ℝ) < 1 ∧ (3 : ℝ) ≤ 2 * Real.sqrt 3 * 1 ∧ find_extrema 1 3 0 1000 = [] :=
  ⟨one_pos, by rw [mul_one]; exact three_le_two_mul_sqrt3,
    (C1_extrema_threshold 1 3 0 1000 one_pos
      (by rw [mul_one]; exact three_le_two_mul_sqrt3)).1⟩

/-- C2: for GM > 0 and l > 2√3·GM the discriminant D = 1 − 12(GM/l)² is
positive and the analyzer computes exactly the two distinct candidate
radii 6GM/(1+√D) (kind max) and 6GM/(1−√D) (kind min); a candidate is
emitted iff it lies within [r_min, r_max] inclusive, and every emitted
point carries the exact closed-form relativistic potential value. -/
theorem C2_candidate_radii (GM l rmin rmax : ℝ) (hGM : 0 < GM)
    (hl : 2 * Real.sqrt 3 * GM < l) :
    0 < 1 - 12 * (GM / l) ^ 2 ∧
    r_max_loc GM l ≠ r_min_loc GM l ∧
    (∀ p ∈ find_extrema GM l rmin rmax,
      p.value = V_eff p.radius GM l ∧ rmin ≤ p.radius ∧ p.radius ≤ rmax ∧
      (p.kind = ExtremumKind.max → p.radius = r_max_loc GM l) ∧
      (p.kind = ExtremumKind.min → p.radius = r_min_loc GM l)) ∧
    (rmin ≤ r_max_loc GM l ∧ r_max_loc GM l ≤ rmax →
      (⟨r_max_loc GM l, V_eff (r_max_loc GM l) GM l, ExtremumKind.max⟩ : ExtremumPoint)
        ∈ find_extrema GM l rmin rmax) ∧
    (rmin ≤ r_min_loc GM l ∧ r_min_loc GM l ≤ rmax →
      (⟨r_min_loc GM l, V_eff (r_min_loc GM l) GM l, ExtremumKind.min⟩ : ExtremumPoint)
        ∈ find_extrema GM l rmin rmax) := by
  have hs3 : Real.sqrt 3 ^ 2 = 3 := Real.sq_sqrt (by norm_num)
  have h2s3 : 0 < 2 * Real.sqrt 3 * GM := by positivity
  have hl0 : 0 < l := lt_trans h2s3 hl
  have key : 12 * GM ^ 2 < l ^ 2 := by
    have h := mul_lt_mul'' hl hl h2s3.le h2s3.le
    calc 12 * GM ^ 2 = (2 * Real.sqrt 3 * GM) * (2 * Real.sqrt 3 * GM) := by
          linear_combination (-4 * GM ^ 2) * hs3
      _ < l * l := h
      _ = l ^ 2 := (sq l).symm
  have hD : 0 < 1 - 12 * (GM / l) ^ 2 := by
    rw [sub_pos, div_pow, ← mul_div_assoc, div_lt_one (by positivity)]
    exact key
  have hDlt1 : 1 - 12 * (GM / l) ^ 2 < 1 := by
    have : 0 < (GM / l) ^ 2 := by positivity
    linarith
  have hs0 : 0 < Real.sqrt (1 - 12 * (GM / l) ^ 2) := Real.sqrt_pos.mpr hD
  have hs1 : Real.sqrt (1 - 12 * (GM / l) ^ 2) < 1 := by
    rw [Real.sqrt_lt' one_pos, one_pow]; exact hDlt1
  have hp1 : (0 : ℝ) < 1 + Real.sqrt (1 - 12 * (GM / l) ^ 2) := by linarith
  have hp2 : (0 : ℝ) < 1 - Real.sqrt (1 - 12 * (GM / l) ^ 2) := by linarith
  have hne : r_max_loc GM l ≠ r_min_loc GM l := by
    unfold r_max_loc r_min_loc
    intro heq
    rw [div_eq_div_iff hp1.ne' hp2.ne'] at heq
    nlinarith [mul_pos hGM hs0]
  refine ⟨hD, hne, ?_, ?_, ?_⟩
  · intro p hp
    simp only [find_extrema] at hp
    rw [if_pos hl, if_pos hD, List.mem_append] at hp
    simp only [r_max_loc, r_min_loc]
    rcases hp with hp | hp
    · by_cases hc : rmin ≤ 6 * GM / (1 + Real.sqrt (1 - 12 * (GM / l) ^ 2)) ∧
        6 * GM / (1 + Real.sqrt (1 - 12 * (GM / l) ^ 2)) ≤ rmax
      · rw [if_pos hc, List.mem_singleton] at hp
        subst hp
        exact ⟨rfl, hc.1, hc.2, fun _ => rfl, fun h => ExtremumKind.noConfusion h⟩
      · rw [if_neg hc] at hp; cases hp
    · by_cases hc : rmin ≤ 6 * GM / (1 - Real.sqrt (1 - 12 * (GM / l) ^ 2)) ∧
        6 * GM / (1 - Real.sqrt (1 - 12 * (GM / l) ^ 2)) ≤ rmax
      · rw [if_pos hc, List.mem_singleton] at hp
        subst hp
        exact ⟨rfl, hc.1, hc.2, fun h => ExtremumKind.noConfusion h, fun _ => rfl⟩
      · rw [if_neg hc] at hp; cases hp
  · intro hc
    simp only [r_max_loc] at hc
    simp only [find_extrema, r_max_loc]
    rw [if_pos hl, if_pos hD, if_pos hc, List.mem_append]
    left
    exact List.mem_singleton.mpr rfl
  · intro hc
    simp only [r_min_loc] at hc
    simp only [find_extrema, r_min_loc]
    rw [if_pos hl, if_pos hD, if_pos hc, List.mem_append]
    right
    exact List.mem_singleton.mpr rfl

theorem C2_witness : 0 < 1 - 12 * ((1 : ℝ) / 4) ^ 2 :=
  (C2_candidate_radii 1 4 0 1000 one_pos
    (by rw [mul_one]; linarith [sqrt3_lt_two])).1

/-- C5: a render cycle whose parse yields no values is fatal: an explicit
error message is surfaced and no plot is produced (the pipeline halts
before the grid and evaluation stages); when at least one value parses,
the plot carries the parse warnings alongside the results. -/
theorem C5_empty_input_fatal (raw : String) (GM rmin rmax : ℝ) :
    ((parse_numbers raw).1 = [] →
      (∃ msg, render_massive raw GM rmin rmax = RenderResult.fatalError msg) ∧
      (∀ g s w, render_massive raw GM rmin rmax ≠ RenderResult.plot g s w) ∧
      (∃ msg, render_photon raw GM rmin rmax = RenderResult.fatalError msg) ∧
      (∀ g s w, render_photon raw GM rmin rmax ≠ RenderResult.plot g s w)) ∧
    ((parse_numbers raw).1 ≠ [] →
      (∃ curves, render_massive raw GM rmin rmax =
        RenderResult.plot ((linspace rmin rmax num_points).map fun x => x * GM)
          curves (parse_numbers raw).2) ∧
      (∃ levels, render_photon raw GM rmin rmax =
        RenderResult.plot ((linspace rmin rmax num_points).map fun x => x * GM)
          levels (parse_numbers raw).2)) := by
  constructor
  · intro h
    simp only [render_massive, render_photon]
    rw [if_pos h, if_pos h]
    exact ⟨⟨_, rfl⟩, fun g s w => by simp, ⟨_, rfl⟩, fun g s w => by simp⟩
  · intro h
    simp only [render_massive, render_photon]
    rw [if_neg h, if_neg h]
    exact ⟨⟨_, rfl⟩, ⟨_, rfl⟩⟩

/-- C9: for 0 < r_min < r_max the radial grid is an ordered sequence of
exactly 3000 evenly spaced, strictly increasing radii whose first element
is r_min and whose last element is r_max; every grid value is positive. -/
theorem C9_radial_grid (rmin rmax : ℝ) (h0 : 0 < rmin) (hlt : rmin < rmax) :
    (linspace rmin rmax num_points).length = 3000 ∧
    (linspace rmin rmax num_points).head? = some rmin ∧
    (linspace rmin rmax num_points).getLast? = some rmax ∧
    (linspace rmin rmax num_points).Pairwise (· < ·) ∧
    (∀ i : ℕ, i + 1 < num_points →
      ∃ x y, (linspace rmin rmax num_points)[i]? = some x ∧
        (linspace rmin rmax num_points)[i + 1]? = some y ∧
        y - x = (rmax - rmin) / 2999) ∧
    (∀ x ∈ linspace rmin rmax num_points, 0 < x) := by
  have e : linspace rmin rmax num_points =
      (List.range num_points).map
        (fun i : ℕ => rmin + (i : ℝ) * ((rmax - rmin) / ((num_points : ℝ) - 1))) := rfl
  have hden : ((num_points : ℝ) - 1) = 2999 := by norm_num [num_points]
  have hstep : 0 < (rmax - rmin) / ((num_points : ℝ) - 1) := by
    rw [hden]
    exact div_pos (by linarith) (by norm_num)
  refine ⟨?_, ?_, ?_, ?_, ?_, ?_⟩
  · rw [e, List.length_map, List.length_range]
    rfl
  · rw [e, List.head?_map, List.head?_range, if_neg (by decide : ¬(num_points = 0)),
      Option.map_some']
    norm_num
  · have hr : List.range num_points = List.range 2999 ++ [2999] := List.range_succ 2999
    have h9 : ((2999 : ℕ) : ℝ) * ((rmax - rmin) / 2999) = rmax - rmin := by
      push_cast
      field_simp
    rw [e, hr, List.map_append, List.map_cons, List.map_nil, List.getLast?_concat]
    exact congrArg some (by rw [hden, h9]; ring)
  · rw [e, List.pairwise_map]
    refine List.Pairwise.imp ?_ (List.pairwise_lt_range num_points)
    intro a b hab
    have hcast : (a : ℝ) < b := Nat.cast_lt.mpr hab
    have hm := mul_lt_mul_of_pos_right hcast hstep
    linarith
  · intro i hi
    have hi0 : i < num_points := Nat.lt_of_succ_lt hi
    rw [e]
    rw [List.getElem?_map, List.getElem?_map, List.getElem?_range hi0,
      List.getElem?_range hi, Option.map_some', Option.map_some']
    refine ⟨_, _, rfl, rfl, ?_⟩
    rw [hden]
    push_cast
    ring
  · intro x hx
    rw [e, List.mem_map] at hx
    obtain ⟨i, hi, rfl⟩ := hx
    have hnn : (0 : ℝ) ≤ (i : ℝ) * ((rmax - rmin) / ((num_points : ℝ) - 1)) :=
      mul_nonneg (Nat.cast_nonneg i) hstep.le
    linarith

theorem C9_witness : (linspace 1 2 num_points).length = 3000 :=
  (C9_radial_grid 1 2 one_pos one_lt_two).1

/-- C10: the token "0" parses to the valid value 0 with no warning; no
guard on b exists between parsing and classification, and at b = 0 the
effective-energy computation 1/(b·GM)² has denominator (0·GM)² = 0, the
unguarded division by zero (modelled by `none`), which the photon render
cycle reaches and passes straight through. -/
theorem C10_zero_impact_parameter :
    parse_numbers "0" = ([0], []) ∧
    ((0 : ℝ) * 1) ^ 2 = 0 ∧
    classify_impact_parameter 0 1 = none ∧
    render_photon "0" 1 (3 / 2) 15 =
      RenderResult.plot ((linspace (3 / 2) 15 num_points).map fun x => x * 1)
        [none] [] := by
  refine ⟨parse_numbers_zero, by norm_num, by simp [classify_impact_parameter], ?_⟩
  simp only [render_photon, parse_numbers_zero]
  rw [if_neg (by simp : ¬([(0 : ℚ)] = []))]
  simp [classify_impact_parameter]
